import Mathlib

/-!
# Verification of the crypto dashboard's data-fetch layer

Shallow embedding of the two data-fetch functions of this repository:
`fetch_crypto_data` (in `src/main.py` and, a second variant without error
handling, in `src/Test.py`) and `fetch_global_market_data` (`src/main.py`).

Modelling conventions:
* JSON values are the inductive `Json`; JSON numbers are rationals (the
  Python floats of realistic payloads are exact at this granularity).
* An HTTP round trip is a function `HttpRequest → NetResult`; the fetch
  functions return, next to their result, the list of requests they issued.
* Python exceptions are `PyExc`; a Python function that may raise returns
  `Except PyExc α`.  `requests.get` raising is `NetResult.failure`;
  `response.json()` on a non-JSON body raises
  `requests.exceptions.JSONDecodeError`, which for requests ≥ 2.27 is a
  subclass of `RequestException` — both are therefore modelled as the
  (caught) `PyExc.requestException`.
* A pandas DataFrame is `PyFrame α`: either the column-less sentinel
  `pd.DataFrame()` (`PyFrame.empty`) or a frame with the two stated
  columns and a row list (`PyFrame.table`).
* A Python naive `datetime` is represented by its microseconds-since-epoch
  offset (`PyDateTime`), with the calendar fields (year, month, …) as
  derived functions computing exactly what `datetime.fromtimestamp` computes
  for the fixed UTC convention.  Naive datetimes compare by their position
  on the time line, so `PyDateTime.lt` is the order on that offset.
  Out-of-range timestamps (beyond year 9999, where CPython would raise) and
  sub-microsecond rounding are outside the model's scope; the payloads of
  the claims are integral epoch-millis, where the model is exact.
-/

/-- A JSON value, as produced by `response.json()`. -/
inductive Json where
  | null
  | bool (b : Bool)
  | num (q : ℚ)
  | str (s : String)
  | arr (elems : List Json)
  | obj (fields : List (String × Json))
deriving Repr

/-- The Python exceptions that can occur in the embedded code. -/
inductive PyExc where
  /-- `requests.exceptions.RequestException` (network failure, timeout,
  and — for requests ≥ 2.27 — a body that fails JSON decoding). -/
  | requestException
  /-- `KeyError` from subscripting a dict with a missing key. -/
  | keyError (k : String)
  /-- `TypeError` (e.g. arithmetic on a non-number, subscripting a list
  with a string). -/
  | typeError
  /-- `ValueError` (e.g. the `pd.DataFrame` constructor on data that does
  not fit the declared two columns). -/
  | valueError
deriving Repr, DecidableEq

/-- An HTTP GET request: URL plus headers. -/
structure HttpRequest where
  url : String
  headers : List (String × String)
deriving Repr, DecidableEq

/-- Outcome of one `requests.get` call. -/
inductive NetResult where
  /-- `requests.get` itself raises `RequestException`
  (connection failure, timeout). -/
  | failure
  /-- A response arrived, with its HTTP status code and its body:
  `some j` if the body parses as JSON `j`, `none` if `.json()` raises. -/
  | response (status : ℕ) (body : Option Json)

/-- A pandas DataFrame as used here: either the column-less sentinel
`pd.DataFrame()` or a two-column frame given by its row list. -/
inductive PyFrame (α : Type) where
  | empty
  | table (rows : List α)
deriving Repr, DecidableEq

/-- The rows of a frame; the sentinel has none. -/
def PyFrame.rowsOf {α : Type} : PyFrame α → List α
  | .empty => []
  | .table rows => rows

/-- A Python naive `datetime`, represented by its microseconds since the
Unix epoch (fixed UTC convention for `datetime.fromtimestamp`). -/
structure PyDateTime where
  epochUsec : ℤ
deriving Repr, DecidableEq

namespace PyDateTime

/-- Python naive datetimes are totally ordered by time-line position. -/
def lt (a b : PyDateTime) : Prop := a.epochUsec < b.epochUsec

instance : DecidableRel lt := fun x y => inferInstanceAs (Decidable (x.epochUsec < y.epochUsec))

/-- Whole seconds since the epoch (floored). -/
def epochSec (d : PyDateTime) : ℤ := d.epochUsec.fdiv 1000000

/-- The `microsecond` field. -/
def microsecond (d : PyDateTime) : ℤ := d.epochUsec.fmod 1000000

/-- Days since 1970-01-01. -/
def dayNumber (d : PyDateTime) : ℤ := d.epochSec.fdiv 86400

/-- Second within the day, in `[0, 86400)`. -/
def secOfDay (d : PyDateTime) : ℤ := d.epochSec.fmod 86400

/-- The `hour` field. -/
def hour (d : PyDateTime) : ℤ := d.secOfDay.fdiv 3600

/-- The `minute` field. -/
def minute (d : PyDateTime) : ℤ := (d.secOfDay.fmod 3600).fdiv 60

/-- The `second` field. -/
def second (d : PyDateTime) : ℤ := d.secOfDay.fmod 60

/-- Gregorian `(year, month, day)` from a day number (civil-from-days,
the standard era-based algorithm, as used by C and Python date code). -/
def civilFromDays (z : ℤ) : ℤ × ℤ × ℤ :=
  let z' := z + 719468
  let era := z'.fdiv 146097
  let doe := z'.fmod 146097
  let yoe := (doe - doe.fdiv 1460 + doe.fdiv 36524 - doe.fdiv 146096).fdiv 365
  let doy := doe - (365 * yoe + yoe.fdiv 4 - yoe.fdiv 100)
  let mp := (5 * doy + 2).fdiv 153
  let d := doy - (153 * mp + 2).fdiv 5 + 1
  let m := mp + (if mp < 10 then 3 else -9)
  (yoe + era * 400 + (if m ≤ 2 then 1 else 0), m, d)

/-- The `year` field. -/
def year (d : PyDateTime) : ℤ := (civilFromDays d.dayNumber).1

/-- The `month` field. -/
def month (d : PyDateTime) : ℤ := (civilFromDays d.dayNumber).2.1

/-- The `day` field. -/
def day (d : PyDateTime) : ℤ := (civilFromDays d.dayNumber).2.2

end PyDateTime

/-- `datetime.fromtimestamp(q)` for `q` in seconds (UTC convention). -/
def fromtimestampQ (q : ℚ) : PyDateTime := ⟨⌊q * 1000000⌋⟩

/-- The timestamp conversion of both fetch variants:
`datetime.fromtimestamp(ts / 1000)` for an epoch-millis value `ts`. -/
def fromtimestampMs (ts : ℚ) : PyDateTime := fromtimestampQ (ts / 1000)

/-- Assoc-list lookup for a JSON object's fields (Python dict indexing;
JSON objects decode to dicts, which preserve key order). -/
def lookupKv : List (String × Json) → String → Option Json
  | [], _ => none
  | (k, v) :: rest, key => if k = key then some v else lookupKv rest key

/-- Python truthiness of a JSON-decoded value. -/
def truthy : Json → Bool
  | .null => false
  | .bool b => b
  | .num q => q ≠ 0
  | .str s => s ≠ ""
  | .arr xs => !xs.isEmpty
  | .obj kvs => !kvs.isEmpty

/-- A JSON value as a Python number, when arithmetic on it is defined
(Python `bool` is an `int` subtype, so it counts). -/
def toNumQ : Json → Option ℚ
  | .num q => some q
  | .bool b => some (if b then 1 else 0)
  | _ => none

/-- Python `x == "key"` for a JSON-decoded `x`. -/
def jsonEqStr (k : String) : Json → Bool
  | .str s => s = k
  | _ => false

/-- Python `d[k]` for a JSON-decoded `d` and string key `k`:
`KeyError` on a dict without the key, `TypeError` on non-dicts. -/
def pySubscript (j : Json) (k : String) : Except PyExc Json :=
  match j with
  | .obj kvs =>
      match lookupKv kvs k with
      | some v => .ok v
      | none => .error (.keyError k)
  | _ => .error .typeError

/-- Error-propagating map over a list (sequencing left to right). -/
def mapExcept {α β : Type} (f : α → Except PyExc β) : List α → Except PyExc (List β)
  | [] => .ok []
  | x :: xs => do
      let y ← f x
      let ys ← mapExcept f xs
      .ok (y :: ys)

/-- The `except requests.exceptions.RequestException: return pd.DataFrame()`
handler wrapped around a fetch body. -/
def catchRequestException {α : Type} (x : Except PyExc (PyFrame α)) :
    Except PyExc (PyFrame α) :=
  match x with
  | .error .requestException => .ok .empty
  | other => other

/-- `API_URL_HISTORY` of `src/main.py` and `src/Test.py`. -/
def API_URL_HISTORY : String := "https://api.coingecko.com/api/v3/coins/"

/-- `API_URL_GLOBAL` of `src/main.py`. -/
def API_URL_GLOBAL : String := "https://api.coingecko.com/api/v3/global"

/-- The history URL f-string of both variants:
`f"{API_URL_HISTORY}{coin_id}/market_chart?vs_currency={currency}&days={days}"`. -/
def historyUrl (coin_id currency : String) (days : ℕ) : String :=
  API_URL_HISTORY ++ coin_id ++ "/market_chart?vs_currency=" ++ currency
    ++ "&days=" ++ toString days

/-- A row of the price-history frame: converted timestamp and the price
cell as delivered (pandas keeps non-numeric price cells unchanged). -/
abbrev DfRow := PyDateTime × Json

/-- One parsed price point: `pd.DataFrame(data, columns=['timestamp','price'])`
needs every row to be a two-cell sequence, else it raises `ValueError`. -/
def parseRow : Json → Except PyExc (Json × Json)
  | .arr [t, p] => .ok (t, p)
  | _ => .error .valueError

/-- The per-row work of
`df['timestamp'].apply(lambda ts: datetime.fromtimestamp(ts / 1000))`:
`ts / 1000` raises `TypeError` unless the cell is a number. -/
def convertRow : Json × Json → Except PyExc DfRow
  | (t, p) =>
      match toNumQ t with
      | some q => .ok (fromtimestampMs q, p)
      | none => .error .typeError

/-- Lines 57–60 of `src/main.py` (also 15–18 of `src/Test.py`): build the
two-column frame from the `prices` value, then convert the timestamps. -/
def buildHistoryFrame (p : Json) : Except PyExc (PyFrame DfRow) :=
  match p with
  | .arr rows => do
      let cells ← mapExcept parseRow rows
      let converted ← mapExcept convertRow cells
      .ok (.table converted)
  | _ => .error .valueError

/-- The guard `if 'prices' in data_history and data_history['prices']:` of
`src/main.py`: `some p` when the key is present with a truthy value,
`none` when the guard is falsy, an error when `in` or the subscript raises
`TypeError` (body is not a dict). -/
def pricesGuard (j : Json) : Except PyExc (Option Json) :=
  match j with
  | .obj kvs =>
      match lookupKv kvs "prices" with
      | some p => .ok (if truthy p then some p else none)
      | none => .ok none
  | .arr xs =>
      -- `'prices' in <list>` is a membership test; when it succeeds, the
      -- subsequent `<list>['prices']` raises `TypeError`.
      if xs.any (jsonEqStr "prices") then .error .typeError else .ok none
  | .str s =>
      -- `'prices' in <str>` is a substring test; when it succeeds, the
      -- subsequent `<str>['prices']` raises `TypeError`.
      if List.IsInfix "prices".data s.data then .error .typeError else .ok none
  | _ => .error .typeError

/-- The `try:` body of `fetch_crypto_data` in `src/main.py` (lines 50–62),
as a function of the outcome of its single `requests.get`. -/
def fetchHistoryTry (r : NetResult) : Except PyExc (PyFrame DfRow) :=
  match r with
  | .failure => .error .requestException
  | .response _ none => .error .requestException
  | .response _ (some j) => do
      match ← pricesGuard j with
      | some p => buildHistoryFrame p
      | none => .ok .empty

/-- `fetch_crypto_data` of `src/main.py`: issues one GET on the templated
URL, parses the body, guards on `prices`, builds the frame; the whole body
is wrapped in `except requests.exceptions.RequestException`.  Returns the
result next to the list of issued requests. -/
def fetch_crypto_data (net : HttpRequest → NetResult) (coin_id currency : String)
    (days : ℕ) : Except PyExc (PyFrame DfRow) × List HttpRequest :=
  let req : HttpRequest := ⟨historyUrl coin_id currency days, []⟩
  (catchRequestException (fetchHistoryTry (net req)), [req])

/-- The body of `fetch_crypto_data` in `src/Test.py` (lines 12–18): same
URL and frame construction, but no guard and no exception handler —
`data_history['prices']` is a bare subscript. -/
def fetchHistoryTestBody (r : NetResult) : Except PyExc (PyFrame DfRow) :=
  match r with
  | .failure => .error .requestException
  | .response _ none => .error .requestException
  | .response _ (some j) => do
      let p ← pySubscript j "prices"
      buildHistoryFrame p

/-- `fetch_crypto_data` of `src/Test.py`: no try/except — every failure
propagates to the caller. -/
def fetch_crypto_data_test (net : HttpRequest → NetResult) (coin_id currency : String)
    (days : ℕ) : Except PyExc (PyFrame DfRow) × List HttpRequest :=
  let req : HttpRequest := ⟨historyUrl coin_id currency days, []⟩
  (fetchHistoryTestBody (net req), [req])

/-- Python `str.capitalize` (ASCII scope, which covers the provider's
asset keys): first character uppercased, the rest lowercased. -/
def pyCapitalize (s : String) : String :=
  match s.data with
  | [] => ""
  | c :: cs => ⟨Char.toUpper c :: cs.map Char.toLower⟩

/-- The comparison `sort_values(by='percentage', ascending=False)` sorts
by: row `a` precedes row `b` when `b`'s percentage is at most `a`'s. -/
def pctGe (a b : String × ℚ) : Prop := b.2 ≤ a.2

instance : DecidableRel pctGe := fun a b => inferInstanceAs (Decidable (b.2 ≤ a.2))

instance : IsTotal (String × ℚ) pctGe := ⟨fun a b => le_total b.2 a.2⟩

instance : IsTrans (String × ℚ) pctGe := ⟨fun _ _ _ h h' => le_trans h' h⟩

/-- The request headers literal of `fetch_global_market_data`. -/
def globalHeaders : List (String × String) :=
  [("accept", "application/json"),
   ("x-cg-demo-api-key", "CG-cCkes31SUqyJqWPRRQAExaMb")]

/-- `list(market_data.items())` together with the `percentage` cell checks
that the later `sort_values` needs: every percentage must be a number for
the comparison to be defined (mixed types raise `TypeError`).  The `coin`
cell is then `str.capitalize`d (line 85 of `src/main.py`). -/
def globalRows (mcp : Json) : Except PyExc (List (String × ℚ)) :=
  match mcp with
  | .obj kvs =>
      mapExcept
        (fun kv =>
          match toNumQ kv.2 with
          | some q => .ok (pyCapitalize kv.1, q)
          | none => .error .typeError)
        kvs
  | _ => .error .typeError

/-- The `try:` body of `fetch_global_market_data` (lines 78–87 of
`src/main.py`): parse the body, subscript `["data"]` and
`["market_cap_percentage"]`, build the frame, capitalize the names, sort
by percentage descending, keep the first 10 rows. -/
def fetchGlobalTry (r : NetResult) : Except PyExc (PyFrame (String × ℚ)) :=
  match r with
  | .failure => .error .requestException
  | .response _ none => .error .requestException
  | .response _ (some j) => do
      let d ← pySubscript j "data"
      let mcp ← pySubscript d "market_cap_percentage"
      let rows ← globalRows mcp
      .ok (.table ((List.insertionSort pctGe rows).take 10))

/-- `fetch_global_market_data` of `src/main.py`: one GET on the fixed
global endpoint with the literal headers; only
`requests.exceptions.RequestException` is caught. -/
def fetch_global_market_data (net : HttpRequest → NetResult) :
    Except PyExc (PyFrame (String × ℚ)) × List HttpRequest :=
  let req : HttpRequest := ⟨API_URL_GLOBAL, globalHeaders⟩
  (catchRequestException (fetchGlobalTry (net req)), [req])

/-- The spec's URL template for the price-history endpoint, written from
the spec's words: `https://<provider>/coins/{asset}/market_chart?vs_currency={currency}&days={n}`
with provider `api.coingecko.com/api/v3`. -/
def specHistoryUrl (asset currency : String) (n : ℕ) : String :=
  "https://api.coingecko.com/api/v3" ++ "/coins/" ++ asset
    ++ "/market_chart?vs_currency=" ++ currency ++ "&days=" ++ toString n

/-- A well-formed `prices` value: the JSON array of `[epoch-millis, price]`
pairs for a list of (integral) epoch-millis timestamps and prices. -/
def mkPricesJson (pts : List (ℤ × ℚ)) : Json :=
  .arr (pts.map fun tp => .arr [.num tp.1, .num tp.2])

/-- The row the fetch is expected to produce from one price point. -/
def expectedRow (tp : ℤ × ℚ) : DfRow := (fromtimestampMs tp.1, .num tp.2)

/-- A well-formed global-market payload around an asset→percentage list. -/
def mkGlobalBody (entries : List (String × ℚ)) : Json :=
  .obj [("data", .obj [("market_cap_percentage",
    .obj (entries.map fun kv => (kv.1, .num kv.2)))])]

/-! ## Supporting lemmas -/

theorem mapExcept_map_ok {α β γ : Type} (g : α → Except PyExc β) (f : γ → α)
    (r : γ → β) (H : ∀ c, g (f c) = .ok (r c)) (l : List γ) :
    mapExcept g (l.map f) = .ok (l.map r) := by
  induction l with
  | nil => rfl
  | cons c l ih => simp [mapExcept, H, ih, Bind.bind, Except.bind]

theorem mapExcept_parseRow (pts : List (ℤ × ℚ)) :
    mapExcept parseRow (pts.map fun tp => Json.arr [Json.num tp.1, Json.num tp.2])
      = .ok (pts.map fun tp => (Json.num tp.1, Json.num tp.2)) :=
  mapExcept_map_ok parseRow (fun tp : ℤ × ℚ => Json.arr [Json.num tp.1, Json.num tp.2])
    (fun tp : ℤ × ℚ => (Json.num tp.1, Json.num tp.2)) (fun _ => rfl) pts

theorem mapExcept_convertRow (pts : List (ℤ × ℚ)) :
    mapExcept convertRow (pts.map fun tp => (Json.num tp.1, Json.num tp.2))
      = .ok (pts.map expectedRow) :=
  mapExcept_map_ok convertRow (fun tp : ℤ × ℚ => (Json.num tp.1, Json.num tp.2))
    expectedRow (fun _ => rfl) pts

theorem globalRows_ok (entries : List (String × ℚ)) :
    globalRows (Json.obj (entries.map fun kv => (kv.1, Json.num kv.2)))
      = .ok (entries.map fun kv => (pyCapitalize kv.1, kv.2)) := by
  rw [globalRows]
  exact mapExcept_map_ok
    (fun kv : String × Json => match toNumQ kv.2 with
      | some q => Except.ok (pyCapitalize kv.1, q)
      | none => Except.error PyExc.typeError)
    (fun kv : String × ℚ => (kv.1, Json.num kv.2))
    (fun kv : String × ℚ => (pyCapitalize kv.1, kv.2)) (fun _ => rfl) entries

theorem buildHistoryFrame_mkPrices (pts : List (ℤ × ℚ)) :
    buildHistoryFrame (mkPricesJson pts) = .ok (.table (pts.map expectedRow)) := by
  simp [buildHistoryFrame, mkPricesJson, mapExcept_parseRow, mapExcept_convertRow,
    Bind.bind, Except.bind]

theorem truthy_mkPrices (pts : List (ℤ × ℚ)) :
    truthy (mkPricesJson pts) = !pts.isEmpty := by
  cases pts <;> rfl

/-- Evaluation of the main-variant fetch on a response whose JSON object
body carries a well-formed `prices` array. -/
theorem fetch_history_ok (coin currency : String) (days status : ℕ)
    (kvs : List (String × Json)) (pts : List (ℤ × ℚ))
    (h : lookupKv kvs "prices" = some (mkPricesJson pts)) :
    (fetch_crypto_data (fun _ => .response status (some (.obj kvs))) coin currency days).1
      = .ok (if pts.isEmpty then .empty else .table (pts.map expectedRow)) := by
  show catchRequestException (fetchHistoryTry _) = _
  simp only [fetchHistoryTry, pricesGuard, h, truthy_mkPrices, Bind.bind, Except.bind]
  cases pts with
  | nil => rfl
  | cons p l =>
    simp [buildHistoryFrame_mkPrices, catchRequestException]

/-- `fromtimestamp(ts / 1000)` on an integral epoch-millis value is the
datetime sitting at `ts · 1000` microseconds since the epoch. -/
theorem fromtimestampMs_intCast (t : ℤ) :
    fromtimestampMs (t : ℚ) = ⟨t * 1000⟩ := by
  have h : ((t : ℚ) / 1000) * 1000000 = ((t * 1000 : ℤ) : ℚ) := by push_cast; ring
  rw [fromtimestampMs, fromtimestampQ, h, Int.floor_intCast]

theorem expectedRow_timestamp_lt {a b : ℤ × ℚ} (h : a.1 < b.1) :
    PyDateTime.lt (expectedRow a).1 (expectedRow b).1 := by
  rw [expectedRow, expectedRow, fromtimestampMs_intCast, fromtimestampMs_intCast]
  exact mul_lt_mul_of_pos_right h (by norm_num)

/-- Evaluation of the global fetch on a response whose body is a
well-formed global-market payload. -/
theorem fetch_global_ok (status : ℕ) (entries : List (String × ℚ)) :
    (fetch_global_market_data (fun _ => .response status (some (mkGlobalBody entries)))).1
      = .ok (.table ((List.insertionSort pctGe
          (entries.map fun kv => (pyCapitalize kv.1, kv.2))).take 10)) := by
  show catchRequestException (fetchGlobalTry _) = _
  simp [fetchGlobalTry, mkGlobalBody, pySubscript, lookupKv, globalRows_ok,
    Bind.bind, Except.bind, catchRequestException]

/-! ## Claims -/

/-- C1 (counterexample): the claim says both fetch variants never raise on
a network failure; but the `src/Test.py` variant has no try/except, so a
failing `requests.get` propagates `RequestException` to the caller. -/
theorem c1_counterexample :
    (fetch_crypto_data_test (fun _ => .failure) "bitcoin" "usd" 30).1
      = .error .requestException := rfl

/-- C1 (amended): the `src/main.py` variant returns the empty sentinel and
never raises on a network failure, on a non-JSON body, and on a JSON
object body whose `prices` field is missing or falsy; the HTTP status is
never consulted.  (The `src/Test.py` variant propagates such failures, and
a truthy malformed `prices` value raises uncaught in both variants.) -/
theorem c1_amended_fail_soft (coin currency : String) (days status : ℕ)
    (kvs : List (String × Json)) :
    (fetch_crypto_data (fun _ => .failure) coin currency days).1 = .ok .empty
    ∧ (fetch_crypto_data (fun _ => .response status none) coin currency days).1 = .ok .empty
    ∧ (lookupKv kvs "prices" = none →
        (fetch_crypto_data (fun _ => .response status (some (.obj kvs)))
          coin currency days).1 = .ok .empty)
    ∧ ∀ p, lookupKv kvs "prices" = some p → truthy p = false →
        (fetch_crypto_data (fun _ => .response status (some (.obj kvs)))
          coin currency days).1 = .ok .empty := by
  refine ⟨rfl, rfl, fun h => ?_, fun p hp ht => ?_⟩
  · show catchRequestException (fetchHistoryTry _) = _
    simp [fetchHistoryTry, pricesGuard, h, Bind.bind, Except.bind, catchRequestException]
  · show catchRequestException (fetchHistoryTry _) = _
    simp [fetchHistoryTry, pricesGuard, hp, ht, Bind.bind, Except.bind, catchRequestException]

/-- C1 (witness): the amended theorem at concrete inputs — a 500-style
JSON error body without `prices`, and a body with an empty `prices`. -/
theorem c1_witness :
    (fetch_crypto_data (fun _ => .response 500 (some (.obj [("error", Json.str "boom")])))
      "bitcoin" "usd" 7).1 = .ok .empty
    ∧ (fetch_crypto_data (fun _ => .response 200 (some (.obj [("prices", Json.arr [])])))
      "bitcoin" "usd" 7).1 = .ok .empty :=
  ⟨(c1_amended_fail_soft "bitcoin" "usd" 7 500 [("error", Json.str "boom")]).2.2.1 rfl,
   (c1_amended_fail_soft "bitcoin" "usd" 7 200 [("prices", Json.arr [])]).2.2.2
     (Json.arr []) rfl rfl⟩

/-- C2: on a response whose JSON object body carries a well-formed
`prices` array of N `[epoch-millis, price]` pairs, `fetch_crypto_data`
returns without raising a frame of exactly N rows, each row the converted
timestamp next to the unchanged price. -/
theorem c2_wellformed_series (coin currency : String) (days status : ℕ)
    (kvs : List (String × Json)) (pts : List (ℤ × ℚ))
    (h : lookupKv kvs "prices" = some (mkPricesJson pts)) :
    ∃ fr, (fetch_crypto_data (fun _ => .response status (some (.obj kvs)))
        coin currency days).1 = .ok fr
      ∧ fr.rowsOf = pts.map expectedRow
      ∧ fr.rowsOf.length = pts.length := by
  refine ⟨_, fetch_history_ok coin currency days status kvs pts h, ?_, ?_⟩
  · cases pts <;> rfl
  · cases pts <;> simp [PyFrame.rowsOf]

/-- C2 (witness): the theorem at a concrete one-point payload. -/
theorem c2_witness :
    ∃ fr, (fetch_crypto_data
        (fun _ => .response 200 (some (.obj [("prices", mkPricesJson [((0:ℤ), (1:ℚ))])])))
        "bitcoin" "usd" 7).1 = .ok fr
      ∧ fr.rowsOf = [((0:ℤ), (1:ℚ))].map expectedRow
      ∧ fr.rowsOf.length = [((0:ℤ), (1:ℚ))].length :=
  c2_wellformed_series "bitcoin" "usd" 7 200 [("prices", mkPricesJson [(0, 1)])] [(0, 1)] rfl

/-- C5: the concrete scenario — asset "bitcoin", currency "usd", days 7,
provider body `{"prices":[[1700000000000,43000.5],[1700003600000,43100.0]]}`
(43000.5 = 86001/2) — yields the two-row series whose calendar times,
under the fixed UTC convention of `datetime.fromtimestamp`, are
2023-11-14T22:13:20 and 2023-11-14T23:13:20, with the prices unchanged. -/
theorem c5_scenario_bitcoin_usd_7 :
    (fetch_crypto_data (fun _ => .response 200 (some (.obj
        [("prices", mkPricesJson [(1700000000000, 86001/2), (1700003600000, 43100)])])))
        "bitcoin" "usd" 7).1
      = .ok (.table [(⟨1700000000000000⟩, .num (86001/2)), (⟨1700003600000000⟩, .num 43100)])
    ∧ ((⟨1700000000000000⟩ : PyDateTime).year = 2023
       ∧ (⟨1700000000000000⟩ : PyDateTime).month = 11
       ∧ (⟨1700000000000000⟩ : PyDateTime).day = 14
       ∧ (⟨1700000000000000⟩ : PyDateTime).hour = 22
       ∧ (⟨1700000000000000⟩ : PyDateTime).minute = 13
       ∧ (⟨1700000000000000⟩ : PyDateTime).second = 20
       ∧ (⟨1700000000000000⟩ : PyDateTime).microsecond = 0)
    ∧ ((⟨1700003600000000⟩ : PyDateTime).year = 2023
       ∧ (⟨1700003600000000⟩ : PyDateTime).month = 11
       ∧ (⟨1700003600000000⟩ : PyDateTime).day = 14
       ∧ (⟨1700003600000000⟩ : PyDateTime).hour = 23
       ∧ (⟨1700003600000000⟩ : PyDateTime).minute = 13
       ∧ (⟨1700003600000000⟩ : PyDateTime).second = 20
       ∧ (⟨1700003600000000⟩ : PyDateTime).microsecond = 0) := by
  refine ⟨?_, by decide, by decide⟩
  rw [fetch_history_ok "bitcoin" "usd" 7 200
    [("prices", mkPricesJson [(1700000000000, 86001/2), (1700003600000, 43100)])]
    [(1700000000000, 86001/2), (1700003600000, 43100)] rfl]
  norm_num [expectedRow, fromtimestampMs, fromtimestampQ]

/-- C6: each price-history fetch (both variants) issues exactly one GET,
whose URL is the spec's template instantiated with asset, currency and
day-window. -/
theorem c6_request_url (net : HttpRequest → NetResult) (coin currency : String)
    (days : ℕ) :
    (fetch_crypto_data net coin currency days).2 = [⟨historyUrl coin currency days, []⟩]
    ∧ (fetch_crypto_data_test net coin currency days).2 = [⟨historyUrl coin currency days, []⟩]
    ∧ historyUrl coin currency days = specHistoryUrl coin currency days :=
  ⟨rfl, rfl, rfl⟩

/-- C8: on a well-formed `prices` payload with strictly increasing
epoch-millis timestamps, the result is the pointwise image of the
provider's list — same length, same order, no gap-filling, filtering or
reordering — and its datetimes are strictly increasing. -/
theorem c8_order_preserved (coin currency : String) (days status : ℕ)
    (kvs : List (String × Json)) (pts : List (ℤ × ℚ))
    (h : lookupKv kvs "prices" = some (mkPricesJson pts))
    (hinc : pts.Chain' (fun a b => a.1 < b.1)) :
    ∃ fr, (fetch_crypto_data (fun _ => .response status (some (.obj kvs)))
        coin currency days).1 = .ok fr
      ∧ fr.rowsOf = pts.map expectedRow
      ∧ fr.rowsOf.Chain' (fun r s => PyDateTime.lt r.1 s.1) := by
  have hrows : (if pts.isEmpty then (PyFrame.empty : PyFrame DfRow)
      else .table (pts.map expectedRow)).rowsOf = pts.map expectedRow := by
    cases pts <;> rfl
  refine ⟨_, fetch_history_ok coin currency days status kvs pts h, hrows, ?_⟩
  rw [hrows, List.chain'_map]
  exact hinc.imp fun a b hab => expectedRow_timestamp_lt hab

/-- C8 (witness): the theorem at a concrete increasing two-point payload. -/
theorem c8_witness :
    List.Chain' (fun a b : ℤ × ℚ => a.1 < b.1) [(1000, 5), (2000, 6)]
    ∧ ∃ fr, (fetch_crypto_data
        (fun _ => .response 200 (some (.obj [("prices", mkPricesJson [(1000, 5), (2000, 6)])])))
        "bitcoin" "usd" 7).1 = .ok fr
      ∧ fr.rowsOf = [((1000:ℤ), (5:ℚ)), (2000, 6)].map expectedRow
      ∧ fr.rowsOf.Chain' (fun r s => PyDateTime.lt r.1 s.1) :=
  ⟨by norm_num [List.chain'_cons],
   c8_order_preserved "bitcoin" "usd" 7 200 [("prices", mkPricesJson [(1000, 5), (2000, 6)])]
     [(1000, 5), (2000, 6)] rfl (by norm_num [List.chain'_cons])⟩

/-- C9: a present-but-empty `prices` list takes the same `else` branch as
a missing `prices` key — the guard needs the field present and non-empty —
so both produce the same empty sentinel. -/
theorem c9_empty_prices_sentinel (coin currency : String) (days status : ℕ)
    (kvs kvs2 : List (String × Json))
    (h : lookupKv kvs "prices" = some (.arr []))
    (h2 : lookupKv kvs2 "prices" = none) :
    (fetch_crypto_data (fun _ => .response status (some (.obj kvs)))
      coin currency days).1 = .ok .empty
    ∧ (fetch_crypto_data (fun _ => .response status (some (.obj kvs2)))
      coin currency days).1 = .ok .empty
    ∧ (fetch_crypto_data (fun _ => .response status (some (.obj kvs)))
        coin currency days).1
      = (fetch_crypto_data (fun _ => .response status (some (.obj kvs2)))
        coin currency days).1 := by
  have e1 : (fetch_crypto_data (fun _ => .response status (some (.obj kvs)))
      coin currency days).1 = .ok .empty := by
    show catchRequestException (fetchHistoryTry _) = _
    simp [fetchHistoryTry, pricesGuard, h, truthy, Bind.bind, Except.bind,
      catchRequestException]
  have e2 : (fetch_crypto_data (fun _ => .response status (some (.obj kvs2)))
      coin currency days).1 = .ok .empty := by
    show catchRequestException (fetchHistoryTry _) = _
    simp [fetchHistoryTry, pricesGuard, h2, Bind.bind, Except.bind, catchRequestException]
  exact ⟨e1, e2, e1.trans e2.symm⟩

/-- C9 (witness): the theorem at concrete bodies `{"prices": []}` and
`{"market_caps": null}`. -/
theorem c9_witness :
    (fetch_crypto_data (fun _ => .response 200 (some (.obj [("prices", Json.arr [])])))
      "bitcoin" "usd" 7).1 = .ok .empty
    ∧ (fetch_crypto_data (fun _ => .response 200 (some (.obj [("market_caps", Json.null)])))
      "bitcoin" "usd" 7).1 = .ok .empty
    ∧ (fetch_crypto_data (fun _ => .response 200 (some (.obj [("prices", Json.arr [])])))
        "bitcoin" "usd" 7).1
      = (fetch_crypto_data (fun _ => .response 200 (some (.obj [("market_caps", Json.null)])))
        "bitcoin" "usd" 7).1 :=
  c9_empty_prices_sentinel "bitcoin" "usd" 7 200 [("prices", Json.arr [])]
    [("market_caps", Json.null)] rfl rfl

/-- C3 (counterexample): the claim says a malformed payload (missing
`data` key) is converted into an empty result; but only
`RequestException` is caught, so `mdata["data"]` on a body without that
key raises an uncaught `KeyError`. -/
theorem c3_counterexample :
    (fetch_global_market_data (fun _ => .response 200 (some (.obj [])))).1
      = .error (.keyError "data") := rfl

/-- C3 (amended): NetworkError-class failures (a raising `requests.get`,
a non-JSON body) are caught at the boundary and become the empty result;
but a MalformedPayload — a JSON body missing the nested `data` or
`market_cap_percentage` key — raises an uncaught `KeyError`. -/
theorem c3_amended_error_boundary (status : ℕ) (j d : Json) :
    (fetch_global_market_data (fun _ => .failure)).1 = .ok .empty
    ∧ (fetch_global_market_data (fun _ => .response status none)).1 = .ok .empty
    ∧ (pySubscript j "data" = .error (.keyError "data") →
        (fetch_global_market_data (fun _ => .response status (some j))).1
          = .error (.keyError "data"))
    ∧ (pySubscript j "data" = .ok d →
        pySubscript d "market_cap_percentage" = .error (.keyError "market_cap_percentage") →
        (fetch_global_market_data (fun _ => .response status (some j))).1
          = .error (.keyError "market_cap_percentage")) := by
  refine ⟨rfl, rfl, fun h => ?_, fun h h2 => ?_⟩
  · show catchRequestException (fetchGlobalTry _) = _
    simp [fetchGlobalTry, h, Bind.bind, Except.bind, catchRequestException]
  · show catchRequestException (fetchGlobalTry _) = _
    simp [fetchGlobalTry, h, h2, Bind.bind, Except.bind, catchRequestException]

/-- C3 (witness): the amended theorem at concrete malformed bodies. -/
theorem c3_witness :
    (fetch_global_market_data (fun _ => .response 500 (some (.obj [("status", Json.null)])))).1
      = .error (.keyError "data")
    ∧ (fetch_global_market_data
        (fun _ => .response 200 (some (.obj [("data", .obj [("updated", Json.null)])])))).1
      = .error (.keyError "market_cap_percentage") :=
  ⟨(c3_amended_error_boundary 500 (.obj [("status", Json.null)]) .null).2.2.1 rfl,
   (c3_amended_error_boundary 200 (.obj [("data", .obj [("updated", Json.null)])])
     (.obj [("updated", Json.null)])).2.2.2 rfl rfl⟩

/-- C4: on a well-formed global-market payload the fetch returns at most
10 rows, sorted by percentage descending, and they are the leading rows
of a percentage-descending sort of the whole asset→percentage mapping. -/
theorem c4_top10_sorted (status : ℕ) (entries : List (String × ℚ)) :
    ∃ l, (fetch_global_market_data
        (fun _ => .response status (some (mkGlobalBody entries)))).1 = .ok (.table l)
      ∧ l.length ≤ 10
      ∧ List.Sorted pctGe l
      ∧ ∃ full, full.Perm (entries.map fun kv => (pyCapitalize kv.1, kv.2))
          ∧ List.Sorted pctGe full ∧ l = full.take 10 := by
  refine ⟨_, fetch_global_ok status entries, ?_, ?_, ?_⟩
  · rw [List.length_take]
    exact min_le_left _ _
  · exact List.Pairwise.sublist (List.take_sublist 10 _)
      (List.sorted_insertionSort pctGe _)
  · exact ⟨_, List.perm_insertionSort pctGe _, List.sorted_insertionSort pctGe _, rfl⟩

/-- C7: every invocation of the market-share fetch issues exactly one GET
to the fixed global endpoint, carrying the provider token in the
`x-cg-demo-api-key` header, and on a well-formed body its result is
computed from the nested `data.market_cap_percentage` mapping. -/
theorem c7_global_request_shape (net : HttpRequest → NetResult) :
    (fetch_global_market_data net).2 = [⟨API_URL_GLOBAL, globalHeaders⟩]
    ∧ API_URL_GLOBAL = "https://api.coingecko.com/api/v3" ++ "/global"
    ∧ List.lookup "x-cg-demo-api-key" globalHeaders
        = some "CG-cCkes31SUqyJqWPRRQAExaMb"
    ∧ ∀ (status : ℕ) (entries : List (String × ℚ)),
        (fetch_global_market_data
          (fun _ => .response status (some (mkGlobalBody entries)))).1
          = .ok (.table ((List.insertionSort pctGe
              (entries.map fun kv => (pyCapitalize kv.1, kv.2))).take 10)) :=
  ⟨rfl, rfl, rfl, fetch_global_ok⟩

/-- C10: every asset name in the market-share result is the corresponding
payload key transformed by Python `str.capitalize` (first character
uppercased, the rest lowercased), with its percentage unchanged. -/
theorem c10_names_capitalized (status : ℕ) (entries : List (String × ℚ)) :
    ∃ l, (fetch_global_market_data
        (fun _ => .response status (some (mkGlobalBody entries)))).1 = .ok (.table l)
      ∧ ∀ row ∈ l, ∃ k v, (k, v) ∈ entries ∧ row = (pyCapitalize k, v) := by
  refine ⟨_, fetch_global_ok status entries, fun row hrow => ?_⟩
  have h2 : row ∈ List.insertionSort pctGe
      (entries.map fun kv => (pyCapitalize kv.1, kv.2)) :=
    (List.take_sublist 10 _).subset hrow
  have h3 : row ∈ entries.map fun kv => (pyCapitalize kv.1, kv.2) :=
    (List.perm_insertionSort pctGe _).mem_iff.mp h2
  obtain ⟨kv, hkv, heq⟩ := List.mem_map.mp h3
  exact ⟨kv.1, kv.2, by simpa using hkv, heq.symm⟩

/-- C10 (witness): the theorem at a concrete one-entry payload. -/
theorem c10_witness :
    ∃ l, (fetch_global_market_data
        (fun _ => .response 200 (some (mkGlobalBody [("btc", (50:ℚ))])))).1 = .ok (.table l)
      ∧ ∀ row ∈ l, ∃ k v, (k, v) ∈ [("btc", (50:ℚ))] ∧ row = (pyCapitalize k, v) :=
  c10_names_capitalized 200 [("btc", 50)]
